import Mathlib

/-!
Verification of the chat-log subsystem of the `mhfali/ayoub` repository:
the chat-log store and query service (`api/db/services/chat_log_service.py`,
`api/apps/chat_log_app.py`), the `<think>` markup stripper
(`api/apps/conversation_app.py`) and the LLM scope flagger
(`api/services/zain_flagger.py`).

Modelling conventions:
- Python strings are Lean `String`; nullable strings are `Option String`.
- Python ints that hold counts or timestamps are `Nat`; HTTP integer
  parameters that the code compares and clamps are `Int`.
- Python floats (`response_time`) are modelled as `ℚ`; the guarded-division
  logic under verification does not depend on floating-point rounding.
- `datetime` instants and dates are modelled as points `Nat` on an abstract
  timeline; `datetime.strptime(s, "%Y-%m-%d")` is an abstract parameter
  `parse : String → Option Nat` (returning `none` exactly when strptime
  raises `ValueError`), and the `.date()` coarsening of a timestamp is an
  abstract parameter `dateOf : Nat → Nat`.
- The ORM call `query(**args, order_by=create_time, reverse=True)` is a
  filter followed by a sort descending on `create_time`; `update_by_id`
  applies the given partial field dictionary to the addressed record.
-/

/-- One `ChatLog` row, with the fields written by
`ChatLogService.log_chat_message` (`chat_log_service.py`). -/
structure ChatLog where
  id : String
  tenant_id : String
  user_id : String
  question : String
  response : Option String
  dialog_id : Option String
  conversation_id : Option String
  is_flagged : Bool
  log_type : String
  flag_reason : Option String
  kb_ids : List String
  tokens_used : Nat
  response_time : ℚ
  source : String
  metadata : List (String × String)
  create_time : Nat
  update_time : Nat
deriving DecidableEq, Repr

/-- `ChatLogService.log_chat_message`: builds the record that is saved.
`id` stands for the generated `get_uuid()`, `cts`/`uts` for the two
`current_timestamp()` calls. `kb_ids or []` and `metadata or {}` become
`Option.getD`. -/
def log_chat_message (id tenant_id user_id question : String)
    (response dialog_id conversation_id : Option String)
    (is_flagged : Bool) (flag_reason : Option String)
    (kb_ids : Option (List String)) (tokens_used : Nat) (response_time : ℚ)
    (source : String) (metadata : Option (List (String × String)))
    (cts uts : Nat) : ChatLog :=
  { id := id
    tenant_id := tenant_id
    user_id := user_id
    question := question
    response := response
    dialog_id := dialog_id
    conversation_id := conversation_id
    is_flagged := is_flagged
    log_type := if is_flagged then "flagged" else "normal"
    flag_reason := flag_reason
    kb_ids := kb_ids.getD []
    tokens_used := tokens_used
    response_time := response_time
    source := source
    metadata := metadata.getD []
    create_time := cts
    update_time := uts }

/-- `ChatLogService.update_response`: partial update of the fields
`response`, `tokens_used`, `response_time`, `update_time` on the addressed
record `e`; every other field is left as stored. -/
def update_response (response : String) (tokens_used : Nat)
    (response_time : ℚ) (uts : Nat) (e : ChatLog) : ChatLog :=
  { e with
    response := some response
    tokens_used := tokens_used
    response_time := response_time
    update_time := uts }

/-- `ChatLogService.update_log_with_flagging`: partial update of
`response`, `is_flagged`, `flag_reason`, `log_type` (recomputed from
`is_flagged`), `response_time`, `tokens_used`, `update_time`. -/
def update_log_with_flagging (response : String) (is_flagged : Bool)
    (flag_reason : String) (response_time : ℚ) (tokens_used : Nat)
    (uts : Nat) (e : ChatLog) : ChatLog :=
  { e with
    response := some response
    is_flagged := is_flagged
    flag_reason := some flag_reason
    log_type := if is_flagged then "flagged" else "normal"
    response_time := response_time
    tokens_used := tokens_used
    update_time := uts }

/-- A concrete record used to instantiate hypotheses of the proved
theorems on explicit inputs. -/
def sampleLog : ChatLog :=
  log_chat_message "id0" "tenant0" "user0" "what is ECL?" none none none
    false none none 0 0 "completion" none 10 10

/-- Claim C1: after each of the three write operations
(`log_chat_message` creation, `update_log_with_flagging`,
`update_response`), the stored entry satisfies
`log_type == "flagged"` iff `is_flagged == true`.  Creation and the
flagging update (re)establish the invariant unconditionally; the plain
response update touches neither field, so it preserves the invariant
whenever the stored record already satisfied it. -/
theorem chatlog_flag_type_invariant :
    (∀ id tid uid q resp did cid fl fr kbs tu rt src md cts uts,
      ((log_chat_message id tid uid q resp did cid fl fr kbs tu rt src md
          cts uts).log_type = "flagged")
        ↔ (log_chat_message id tid uid q resp did cid fl fr kbs tu rt src md
          cts uts).is_flagged = true) ∧
    (∀ resp fl fr rt tu uts e,
      ((update_log_with_flagging resp fl fr rt tu uts e).log_type = "flagged")
        ↔ (update_log_with_flagging resp fl fr rt tu uts e).is_flagged = true) ∧
    (∀ resp tu rt uts e,
      (e.log_type = "flagged" ↔ e.is_flagged = true) →
      ((update_response resp tu rt uts e).log_type = "flagged"
        ↔ (update_response resp tu rt uts e).is_flagged = true)) := by
  refine ⟨?_, ?_, ?_⟩
  · intro id tid uid q resp did cid fl fr kbs tu rt src md cts uts
    cases fl <;> simp [log_chat_message]
  · intro resp fl fr rt tu uts e
    cases fl <;> simp [update_log_with_flagging]
  · intro resp tu rt uts e h
    simpa [update_response] using h

/-- Witness for C1: the preservation clause applied to a concrete stored
record that satisfies the invariant. -/
theorem chatlog_flag_type_invariant_witness :
    ((update_response "ans" 3 1 11 sampleLog).log_type = "flagged"
      ↔ (update_response "ans" 3 1 11 sampleLog).is_flagged = true) :=
  chatlog_flag_type_invariant.2.2 "ans" 3 1 11 sampleLog (by decide)

/-- Claim C2: a flagging update (with `is_flagged=true`) followed by a
response update leaves the flag fields of the first update in place and
the response of the second, and `update_response` modifies no field
outside `response`, `tokens_used`, `response_time`, `update_time`. -/
theorem flag_then_response_update_frame :
    (∀ e r1 fr rt1 tu1 t1 r2 tu2 rt2 t2,
      (update_response r2 tu2 rt2 t2
          (update_log_with_flagging r1 true fr rt1 tu1 t1 e)).is_flagged = true ∧
      (update_response r2 tu2 rt2 t2
          (update_log_with_flagging r1 true fr rt1 tu1 t1 e)).flag_reason = some fr ∧
      (update_response r2 tu2 rt2 t2
          (update_log_with_flagging r1 true fr rt1 tu1 t1 e)).log_type = "flagged" ∧
      (update_response r2 tu2 rt2 t2
          (update_log_with_flagging r1 true fr rt1 tu1 t1 e)).response = some r2) ∧
    (∀ e r tu rt t,
      (update_response r tu rt t e).id = e.id ∧
      (update_response r tu rt t e).tenant_id = e.tenant_id ∧
      (update_response r tu rt t e).user_id = e.user_id ∧
      (update_response r tu rt t e).question = e.question ∧
      (update_response r tu rt t e).dialog_id = e.dialog_id ∧
      (update_response r tu rt t e).conversation_id = e.conversation_id ∧
      (update_response r tu rt t e).is_flagged = e.is_flagged ∧
      (update_response r tu rt t e).log_type = e.log_type ∧
      (update_response r tu rt t e).flag_reason = e.flag_reason ∧
      (update_response r tu rt t e).kb_ids = e.kb_ids ∧
      (update_response r tu rt t e).source = e.source ∧
      (update_response r tu rt t e).metadata = e.metadata ∧
      (update_response r tu rt t e).create_time = e.create_time) := by
  constructor
  · intro e r1 fr rt1 tu1 t1 r2 tu2 rt2 t2
    refine ⟨rfl, rfl, rfl, rfl⟩
  · intro e r tu rt t
    refine ⟨rfl, rfl, rfl, rfl, rfl, rfl, rfl, rfl, rfl, rfl, rfl, rfl, rfl⟩

/-! ## `clean_think_content` (`api/apps/conversation_app.py`)

The route module strips reasoning markup with
`re.sub(r'<think>[\s\S]*?</think>', '', result)` inside a loop that runs
until a fixed point, then calls `.strip()`.  The lazy (non-greedy) regex
matches, at each `<think>` occurrence scanned left to right, up to the
NEAREST following `</think>`.  `reSubThinkF` mirrors one `re.sub` pass;
`thinkLoop` mirrors the `while result != previous_result` loop.  Both use
a fuel argument for structural recursion; every recursive call strictly
shortens the character list while spending one fuel, so fuel
`length + 1` never runs out and the fuel-free semantics is preserved. -/

def openTag : List Char := "<think>".data

def closeTag : List Char := "</think>".data

/-- Scan for the first occurrence of `pat` in the list and return the
remainder strictly after it (`none` when `pat` does not occur).  Used
with the nonempty pattern `closeTag`. -/
def dropThrough (pat : List Char) : List Char → Option (List Char)
  | [] => none
  | c :: rest =>
    if pat.isPrefixOf (c :: rest) then some ((c :: rest).drop pat.length)
    else dropThrough pat rest

/-- One pass of `re.sub(r'<think>[\s\S]*?</think>', '', l)`: at each
position, if the open tag starts here and a close tag occurs after it,
delete through the first such close tag and continue after the deletion;
otherwise keep the character and move on. -/
def reSubThinkF : Nat → List Char → List Char
  | 0, l => l
  | _ + 1, [] => []
  | fuel + 1, c :: rest =>
    if openTag.isPrefixOf (c :: rest) then
      match dropThrough closeTag (rest.drop 6) with
      | some suffix => reSubThinkF fuel suffix
      | none => c :: reSubThinkF fuel rest
    else c :: reSubThinkF fuel rest

def reSubThink (l : List Char) : List Char := reSubThinkF (l.length + 1) l

/-- The `while result != previous_result` loop: iterate `reSubThink` to a
fixed point.  A pass that changes the list strictly shortens it, so fuel
`length + 1` reaches the fixed point. -/
def thinkLoop : Nat → List Char → List Char
  | 0, l => l
  | fuel + 1, l =>
    if reSubThink l = l then l else thinkLoop fuel (reSubThink l)

/-- Python `str.strip()` on the ASCII whitespace characters. -/
def isPySpace (c : Char) : Bool :=
  c = ' ' || c = '\t' || c = '\n' || c = '\r' || c = '\x0b' || c = '\x0c'

def pyStrip (l : List Char) : List Char :=
  ((l.dropWhile isPySpace).reverse.dropWhile isPySpace).reverse

/-- `clean_think_content` from `conversation_app.py`. -/
def clean_think_content (s : String) : String :=
  String.mk (pyStrip (thinkLoop (s.data.length + 1) s.data))

/-- Claim C3: the function is documented ("Handle nested think tags by
repeatedly removing them") and specified to remove nested
`<think>...</think>` spans until none remain, reducing
`"<think>x<think>y</think>z</think>done"` to `"done"`.  The lazy regex
instead matches the first `<think>` up to the FIRST `</think>`, so the
nested input leaves the residue `"z</think>done"`; a non-nested input is
handled as specified. -/
theorem clean_think_content_nested_residue :
    clean_think_content "<think>x<think>y</think>z</think>done" = "z</think>done" ∧
    clean_think_content "<think>x<think>y</think>z</think>done" ≠ "done" ∧
    clean_think_content "<think>y</think> done " = "done" := by
  refine ⟨by decide, by decide, by decide⟩

/-! ## `ZainContentFlagger` (`api/services/zain_flagger.py`)

`_llm_decide` issues one chat call and parses the reply.  The interaction
with the LLM bundle is modelled by an `LLMOutcome`: the bundle is absent
(`noBundle`, i.e. `self.llm_bundle` is `None`), the chat call raises
(`chatError`), or it returns a string (`chatResponse`, to which the code
immediately applies `.strip()`).  `str.upper()` is modelled on ASCII. -/

inductive LLMOutcome where
  | noBundle : LLMOutcome
  | chatError : String → LLMOutcome
  | chatResponse : String → LLMOutcome
deriving DecidableEq

def stripS (s : String) : String := String.mk (pyStrip s.data)

def pyUpper (s : String) : String := String.mk (s.data.map Char.toUpper)

/-- `raw.split(":", 1)[1]`: everything after the first colon.  In the code
this is only evaluated under a prefix guard that guarantees a colon. -/
def afterChar (c : Char) : List Char → List Char
  | [] => []
  | x :: xs => if x = c then xs else afterChar c xs

/-- `ZainContentFlagger._llm_decide`, given the modelled LLM interaction:
returns `(is_answerable, reason)`. -/
def llm_decide : LLMOutcome → Bool × String
  | .noBundle => (true, "LLM unavailable; default allow")
  | .chatError e => (true, "LLM failure, allowing question: " ++ e)
  | .chatResponse raw0 =>
    if stripS raw0 = "" then (true, "Empty LLM response, allowing question")
    else if (pyUpper (stripS raw0)).take 6 = "ALLOW:" then
      (true, stripS (String.mk (afterChar ':' (stripS raw0).data)))
    else if (pyUpper (stripS raw0)).take 5 = "FLAG:" then
      (false, stripS (String.mk (afterChar ':' (stripS raw0).data)))
    else (true, "Unrecognized LLM response format, allowing: " ++ stripS raw0)

/-- The result dictionary built by `ZainContentFlagger.check_question`. -/
structure CheckResult where
  is_related : Bool
  is_flagged : Bool
  reason : String
  method : String
  question : String
  response_message : Option String
deriving DecidableEq

def check_question (outcome : LLMOutcome) (question : String) : CheckResult :=
  let d := llm_decide outcome
  { is_related := d.1
    is_flagged := !d.1
    reason := if d.1 then "Answerable from KB: " ++ d.2
              else "Not answerable from KB: " ++ d.2
    method := "llm_only"
    question := question
    response_message :=
      if d.1 then none else some "Your answer has been flagged" }

/-- Claim C7, counterexample to the reason clause: for the LLM response
exactly `"FLAG: off-topic"`, `check_question` does return
`is_related=false`, but its `reason` field is the wrapped string
`"Not answerable from KB: off-topic"`, not `"off-topic"`; the bare
`"off-topic"` is only the reason component of the `_llm_decide` step. -/
theorem check_question_reason_counterexample :
    (check_question (.chatResponse "FLAG: off-topic") "q").is_related = false ∧
    (check_question (.chatResponse "FLAG: off-topic") "q").reason =
      "Not answerable from KB: off-topic" ∧
    (check_question (.chatResponse "FLAG: off-topic") "q").reason ≠ "off-topic" := by
  refine ⟨by decide, by decide, by decide⟩

/-- Claim C7 as amended: `check_question` returns `is_related=true`
whenever the LLM client is unavailable, the LLM call raises, the stripped
response is empty, or the response matches neither case-insensitive
prefix `"ALLOW:"` nor `"FLAG:"`; for the response exactly
`"FLAG: off-topic"` the `_llm_decide` step returns `(false, "off-topic")`
and `check_question` returns `is_related=false` with reason
`"Not answerable from KB: off-topic"`; the unparseable response
`"banana"` yields `is_related=true`; and `is_flagged` always equals the
negation of `is_related`. -/
theorem check_question_conservative :
    (∀ q, (check_question .noBundle q).is_related = true) ∧
    (∀ q e, (check_question (.chatError e) q).is_related = true) ∧
    (∀ q raw, stripS raw = "" →
      (check_question (.chatResponse raw) q).is_related = true) ∧
    (∀ q raw, (pyUpper (stripS raw)).take 6 ≠ "ALLOW:" →
      (pyUpper (stripS raw)).take 5 ≠ "FLAG:" →
      (check_question (.chatResponse raw) q).is_related = true) ∧
    (llm_decide (.chatResponse "FLAG: off-topic") = (false, "off-topic") ∧
      (check_question (.chatResponse "FLAG: off-topic") "q").is_related = false ∧
      (check_question (.chatResponse "FLAG: off-topic") "q").reason =
        "Not answerable from KB: off-topic") ∧
    ((check_question (.chatResponse "banana") "q").is_related = true) ∧
    (∀ outcome q,
      (check_question outcome q).is_flagged =
        !(check_question outcome q).is_related) := by
  refine ⟨?_, ?_, ?_, ?_, ⟨by decide, by decide, by decide⟩, by decide, ?_⟩
  · intro q; rfl
  · intro q e; rfl
  · intro q raw h
    simp [check_question, llm_decide, h]
  · intro q raw hA hF
    simp only [check_question, llm_decide]
    by_cases h0 : stripS raw = ""
    · simp [h0]
    · simp [h0, hA, hF]
  · intro outcome q; rfl

/-- Witness for C7: the neither-prefix clause applied to the concrete
unparseable response `"banana"`. -/
theorem check_question_conservative_witness :
    (pyUpper (stripS "banana")).take 6 ≠ "ALLOW:" ∧
    (pyUpper (stripS "banana")).take 5 ≠ "FLAG:" ∧
    (check_question (.chatResponse "banana") "q").is_related = true :=
  ⟨by decide, by decide,
    check_question_conservative.2.2.2.1 "q" "banana" (by decide) (by decide)⟩

/-! ## CSV export (`export_logs` in `api/apps/chat_log_app.py`)

The CSV branch fixes `fieldnames` and, per record, builds
`csv_row = (field: log_dict.get(field, '') for field in fieldnames)`.
A record is modelled as the partial mapping `rec : String → Option String`
from field names to rendered cell values (`none` both for an absent key
and for a stored SQL NULL, which `csv.DictWriter` also writes as an empty
cell). -/

def csvFieldnames : List String :=
  ["id", "create_time", "user_id", "question", "response",
   "is_flagged", "log_type", "flag_reason", "source",
   "tokens_used", "response_time", "dialog_id", "conversation_id"]

/-- The cell sequence written for one record, in `csvFieldnames` order. -/
def csvRow (rec : String → Option String) : List String :=
  csvFieldnames.map (fun f => (rec f).getD "")

/-- Claim C9: every exported record yields exactly the 13 cells for
`id, create_time, user_id, question, response, is_flagged, log_type,
flag_reason, source, tokens_used, response_time, dialog_id,
conversation_id`, in that order, and a field missing from the record
renders as the empty string (in particular `flag_reason`, at column
index 7). -/
theorem csv_export_columns :
    (∀ rec, csvRow rec =
      [(rec "id").getD "", (rec "create_time").getD "",
       (rec "user_id").getD "", (rec "question").getD "",
       (rec "response").getD "", (rec "is_flagged").getD "",
       (rec "log_type").getD "", (rec "flag_reason").getD "",
       (rec "source").getD "", (rec "tokens_used").getD "",
       (rec "response_time").getD "", (rec "dialog_id").getD "",
       (rec "conversation_id").getD ""]) ∧
    (∀ rec, (csvRow rec).length = 13) ∧
    (csvFieldnames.get? 7 = some "flag_reason") ∧
    (∀ rec n f, csvFieldnames.get? n = some f → rec f = none →
      (csvRow rec).get? n = some "") := by
  refine ⟨fun rec => rfl, fun rec => rfl, rfl, ?_⟩
  intro rec n f hn hf
  have : (csvRow rec).get? n = (csvFieldnames.get? n).map (fun f => (rec f).getD "") := by
    simp [csvRow]
  rw [this, hn]
  simp [hf]

/-- Witness for C9: a record with no `flag_reason` key renders column 7
as the empty string. -/
theorem csv_export_columns_witness :
    csvFieldnames.get? 7 = some "flag_reason" ∧
    (fun _ => (none : Option String)) "flag_reason" = none ∧
    (csvRow (fun _ => none)).get? 7 = some "" :=
  ⟨by decide, rfl,
    csv_export_columns.2.2.2 (fun _ => none) 7 "flag_reason" (by decide) rfl⟩

/-! ## Chat-log query service
(`api/apps/chat_log_app.py` route `list_logs`, and the `ChatLogService`
query helpers).  The ORM query with `order_by=create_time, reverse=True`
is a filter followed by a descending insertion sort on `create_time`. -/

/-- Descending order on `create_time` (latest first). -/
def byCreateDesc (a b : ChatLog) : Prop := b.create_time ≤ a.create_time

instance : DecidableRel byCreateDesc := fun a b =>
  Nat.decLe b.create_time a.create_time

instance : IsTotal ChatLog byCreateDesc :=
  ⟨fun a b => (Nat.le_total a.create_time b.create_time).symm⟩

instance : IsTrans ChatLog byCreateDesc :=
  ⟨fun _ _ _ hab hbc => le_trans hbc hab⟩

def sortDesc (l : List ChatLog) : List ChatLog :=
  List.insertionSort byCreateDesc l

/-- Python truthiness of an optional string parameter: `None` and `""`
are falsy. -/
def strTruthy : Option String → Option String
  | none => none
  | some s => if s = "" then none else some s

/-- `if filter_user_id and filter_user_id != "all"`. -/
def userActive (u : Option String) : Option String :=
  match strTruthy u with
  | none => none
  | some s => if s = "all" then none else some s

/-- The optional `tenant_id` filter of the service helpers
(`if tenant_id: query_args["tenant_id"] = tenant_id`). -/
def tenantFilter (t : Option String) (l : ChatLog) : Bool :=
  match strTruthy t with
  | none => true
  | some s => l.tenant_id == s

/-- The `flag` query parameter translated to ORM filter arguments:
`flagged`/`unflagged` filter on `is_flagged`, `inappropriate` and
`out-of-scope` on exact `flag_reason` match, anything else filters
nothing. -/
def flagPred (flag : String) (l : ChatLog) : Bool :=
  if flag = "flagged" then l.is_flagged
  else if flag = "unflagged" then !l.is_flagged
  else if flag = "inappropriate" then l.flag_reason == some "inappropriate"
  else if flag = "out-of-scope" then l.flag_reason == some "out of scope"
  else true

def pyLower (s : String) : String := String.mk (s.data.map Char.toLower)

/-- Python substring test `needle in hay`. -/
def containsSub (needle hay : String) : Bool :=
  (List.range (hay.data.length + 1)).any
    (fun i => needle.data.isPrefixOf (hay.data.drop i))

/-- The in-memory search filter: case-insensitive substring match against
`question`, `response` (when truthy) or `user_id`. -/
def searchPred (needle : String) (l : ChatLog) : Bool :=
  containsSub (pyLower needle) (pyLower l.question) ||
  (match l.response with
   | some r => !(r == "") && containsSub (pyLower needle) (pyLower r)
   | none => false) ||
  containsSub (pyLower needle) (pyLower l.user_id)

/-- Structured client error produced by `get_data_error_result`. -/
inductive ApiError where
  | dataError : String → ApiError
deriving DecidableEq, Repr

/-- The query parameters of the `/list` route, already read as in the
handler (`page`/`limit` as ints, the rest as optional strings). -/
structure ListParams where
  page : Int
  limit : Int
  user_id : Option String
  flag : String
  search : Option String
  start_date : Option String
  end_date : Option String
deriving DecidableEq

/-- `if page < 1: page = 1`. -/
def clampPage (page : Int) : Int := if page < 1 then 1 else page

/-- `limit = min(int(...), 200)` followed by `if limit < 1: limit = 1`. -/
def clampLimit (limit : Int) : Int :=
  let l := min limit 200
  if l < 1 then 1 else l

/-- The date-filtering loop of `list_logs`: per entry, the (truthy)
`start_date` is parsed first (`ValueError` returns a client error for the
whole request), entries before it are skipped with `continue` — which
also skips the `end_date` parse for that entry — then `end_date` is
parsed and later entries are skipped.  `dateOf` models
`log.create_time.date()`. -/
def dateFilterLoop (parse : String → Option Nat) (dateOf : Nat → Nat)
    (sd ed : Option String) :
    List ChatLog → Except ApiError (List ChatLog)
  | [] => .ok []
  | log :: rest =>
    match sd with
    | some s =>
      match parse s with
      | none => .error (.dataError "Invalid start_date format. Use YYYY-MM-DD")
      | some sdt =>
        if dateOf log.create_time < sdt then
          dateFilterLoop parse dateOf sd ed rest
        else
          match ed with
          | some es =>
            match parse es with
            | none => .error (.dataError "Invalid end_date format. Use YYYY-MM-DD")
            | some edt =>
              if edt < dateOf log.create_time then
                dateFilterLoop parse dateOf sd ed rest
              else (dateFilterLoop parse dateOf sd ed rest).map (log :: ·)
          | none => (dateFilterLoop parse dateOf sd ed rest).map (log :: ·)
    | none =>
      match ed with
      | some es =>
        match parse es with
        | none => .error (.dataError "Invalid end_date format. Use YYYY-MM-DD")
        | some edt =>
          if edt < dateOf log.create_time then
            dateFilterLoop parse dateOf sd ed rest
          else (dateFilterLoop parse dateOf sd ed rest).map (log :: ·)
      | none => (dateFilterLoop parse dateOf sd ed rest).map (log :: ·)

/-- `ChatLogService.query(tenant_id=..., order_by=create_time,
reverse=True)`: the tenant scan used for the global totals. -/
def tenantLogs (t : String) (db : List ChatLog) : List ChatLog :=
  sortDesc (db.filter (fun l => l.tenant_id == t))

/-- The set the handler computes its totals over: `all_logs`, replaced by
the user-filtered comprehension when a user filter is given. -/
def totalsBase (u : Option String) (t : String) (db : List ChatLog) :
    List ChatLog :=
  match userActive u with
  | some uu => (tenantLogs t db).filter (fun l => l.user_id == uu)
  | none => tenantLogs t db

/-- The filtered ORM query of the handler: tenant, optional user and
flag filter, ordered descending. -/
def queryLogs (t : String) (u : Option String) (flag : String)
    (db : List ChatLog) : List ChatLog :=
  sortDesc (db.filter (fun l =>
    l.tenant_id == t &&
    (match userActive u with | some uu => l.user_id == uu | none => true) &&
    flagPred flag l))

/-- The entry sequence after the tenant/user/flag query and the optional
search filter, before date filtering. -/
def preDateLogs (p : ListParams) (t : String) (db : List ChatLog) :
    List ChatLog :=
  match strTruthy p.search with
  | some s => (queryLogs t p.user_id p.flag db).filter (searchPred s)
  | none => queryLogs t p.user_id p.flag db

/-- The entry sequence after all filters (the date loop runs only when a
truthy `start_date` or `end_date` is present). -/
def filteredSeq (parse : String → Option Nat) (dateOf : Nat → Nat)
    (p : ListParams) (t : String) (db : List ChatLog) :
    Except ApiError (List ChatLog) :=
  if (strTruthy p.start_date).isSome || (strTruthy p.end_date).isSome then
    dateFilterLoop parse dateOf (strTruthy p.start_date)
      (strTruthy p.end_date) (preDateLogs p t db)
  else .ok (preDateLogs p t db)

/-- The successful JSON payload of `/list`: the paginated slice, the
pagination metadata and the global totals. -/
structure ListOutput where
  logs : List ChatLog
  page : Int
  limit : Int
  total : Nat
  pages : Int
  total_chats : Nat
  total_flagged : Nat
  total_out_scope : Nat
deriving DecidableEq

/-- Assembly of the response from the clamped parameters, the totals
base and the filtered sequence: `offset = (page - 1) * limit`, the page
is `logs[offset:offset + limit]`, and
`pages = (total_count + limit - 1) // limit` (Python floor division is
`Int.fdiv`). -/
def assembleOutput (page limit : Int) (base logs : List ChatLog) :
    ListOutput :=
  { logs := (logs.drop ((page - 1) * limit).toNat).take limit.toNat
    page := page
    limit := limit
    total := logs.length
    pages := ((logs.length : Int) + limit - 1).fdiv limit
    total_chats := base.length
    total_flagged := (base.filter (fun l => l.is_flagged)).length
    total_out_scope :=
      (base.filter (fun l => l.flag_reason == some "out of scope")).length }

/-- The `/list` route handler `list_logs` of `chat_log_app.py`, given the
authenticated tenant and the stored records. -/
def list_logs (parse : String → Option Nat) (dateOf : Nat → Nat)
    (p : ListParams) (t : String) (db : List ChatLog) :
    Except ApiError ListOutput :=
  (filteredSeq parse dateOf p t db).map
    (assembleOutput (clampPage p.page) (clampLimit p.limit)
      (totalsBase p.user_id t db))

/-- `ChatLogService.get_statistics`: optional tenant filter, then the
optional date window (`continue` when `create_time` is before `start` or
after `end`). -/
def statsFiltered (t : Option String) (sd ed : Option Nat)
    (db : List ChatLog) : List ChatLog :=
  let all0 := db.filter (tenantFilter t)
  if sd.isSome || ed.isSome then
    all0.filter (fun l =>
      (match sd with | some s => decide (s ≤ l.create_time) | none => true) &&
      (match ed with | some e => decide (l.create_time ≤ e) | none => true))
  else all0

/-- The statistics dictionary returned by `get_statistics`. -/
structure Stats where
  total_logs : Nat
  normal_logs : Nat
  flagged_logs : Nat
  flagged_percentage : ℚ
  total_tokens_used : Nat
  average_response_time : ℚ
deriving DecidableEq

def get_statistics (t : Option String) (sd ed : Option Nat)
    (db : List ChatLog) : Stats :=
  let logs := statsFiltered t sd ed db
  let total := logs.length
  let flagged := (logs.filter (fun l => l.is_flagged)).length
  { total_logs := total
    normal_logs := total - flagged
    flagged_logs := flagged
    flagged_percentage :=
      if 0 < total then (flagged : ℚ) / (total : ℚ) * 100 else 0
    total_tokens_used := (logs.map (fun l => l.tokens_used)).sum
    average_response_time :=
      if 0 < total then (logs.map (fun l => l.response_time)).sum / (total : ℚ)
      else 0 }

/-- Python `lst[:i]` (negative stops count from the end). -/
def pySliceTo (l : List ChatLog) (i : Int) : List ChatLog :=
  if 0 ≤ i then l.take i.toNat
  else l.take (l.length - min l.length i.natAbs)

/-- `ChatLogService.get_flagged_logs`: the flagged scan, truncated by
`[:limit]` only when `limit` is truthy (non-zero). -/
def get_flagged_logs (t : Option String) (limit : Int)
    (db : List ChatLog) : List ChatLog :=
  let base := sortDesc (db.filter (fun l => l.is_flagged && tenantFilter t l))
  if limit ≠ 0 then pySliceTo base limit else base

/-- Sorting a scan result does not change how many entries satisfy a
predicate. -/
theorem length_filter_sortDesc (p : ChatLog → Bool) (l : List ChatLog) :
    ((sortDesc l).filter p).length = (l.filter p).length :=
  ((List.perm_insertionSort byCreateDesc l).filter p).length_eq

theorem length_sortDesc (l : List ChatLog) :
    (sortDesc l).length = l.length :=
  (List.perm_insertionSort byCreateDesc l).length_eq

/-- Bounds pinning `(t + L - 1) // L` as the ceiling of `t / L`. -/
theorem ceil_fdiv_bounds (t : Nat) (L : Int) (hL : 1 ≤ L) :
    (t : Int) ≤ (((t : Int) + L - 1).fdiv L) * L ∧
    (((t : Int) + L - 1).fdiv L) * L < (t : Int) + L := by
  have hb : (0 : Int) ≤ L := by omega
  rw [Int.fdiv_eq_ediv _ hb]
  have h1 : L * (((t : Int) + L - 1) / L) + ((t : Int) + L - 1) % L
      = (t : Int) + L - 1 := Int.ediv_add_emod _ _
  have h2 : 0 ≤ ((t : Int) + L - 1) % L :=
    Int.emod_nonneg _ (by omega)
  have h3 : ((t : Int) + L - 1) % L < L :=
    Int.emod_lt_of_pos _ (by omega)
  have hc : (((t : Int) + L - 1) / L) * L = L * (((t : Int) + L - 1) / L) :=
    mul_comm _ _
  constructor
  · linarith
  · linarith

theorem clampLimit_pos (limit : Int) : 1 ≤ clampLimit limit := by
  simp only [clampLimit]
  split
  · omega
  · omega

/-- Claim C8: when no log matches (the tenant/date-filtered set is
empty), `get_statistics` returns `average_response_time = 0` and
`flagged_percentage = 0`; both divisions are guarded by `total > 0`, so
no division fault can occur. -/
theorem statistics_zero_safe :
    ∀ t sd ed db, statsFiltered t sd ed db = [] →
      (get_statistics t sd ed db).average_response_time = 0 ∧
      (get_statistics t sd ed db).flagged_percentage = 0 := by
  intro t sd ed db h
  simp [get_statistics, h]

/-- Witness for C8: statistics over an empty store. -/
theorem statistics_zero_safe_witness :
    (get_statistics none none none []).average_response_time = 0 ∧
    (get_statistics none none none []).flagged_percentage = 0 :=
  statistics_zero_safe none none none [] rfl

/-- Claim C10: `get_flagged_logs` truncates with `[:limit]` only under
`if limit`, so `limit = 0` returns the whole descending-ordered flagged
scan (as many entries as there are flagged records, no cap), while any
positive `limit` returns at most `limit` entries. -/
theorem get_flagged_logs_limit_zero :
    (∀ t db,
      get_flagged_logs t 0 db =
        sortDesc (db.filter (fun l => l.is_flagged && tenantFilter t l)) ∧
      (get_flagged_logs t 0 db).length =
        (db.filter (fun l => l.is_flagged && tenantFilter t l)).length ∧
      List.Sorted byCreateDesc (get_flagged_logs t 0 db)) ∧
    (∀ t db lim, 0 < lim →
      (get_flagged_logs t lim db).length ≤ lim.toNat) := by
  constructor
  · intro t db
    refine ⟨rfl, ?_, ?_⟩
    · simpa [get_flagged_logs] using
        length_sortDesc (db.filter (fun l => l.is_flagged && tenantFilter t l))
    · simpa [get_flagged_logs, sortDesc] using
        List.sorted_insertionSort byCreateDesc
          (db.filter (fun l => l.is_flagged && tenantFilter t l))
  · intro t db lim hlim
    have hne : lim ≠ 0 := by omega
    have h0 : (0 : Int) ≤ lim := by omega
    simp only [get_flagged_logs, pySliceTo, if_pos hne, if_pos h0]
    simp [List.length_take]

/-- Witness for C10: a store with two flagged records, capped at 1. -/
theorem get_flagged_logs_limit_zero_witness :
    (0 : Int) < 1 ∧
    (get_flagged_logs none 1
      [{ sampleLog with is_flagged := true },
       { sampleLog with is_flagged := true, create_time := 20 }]).length ≤
      (1 : Int).toNat :=
  ⟨by decide, get_flagged_logs_limit_zero.2 none
    [{ sampleLog with is_flagged := true },
     { sampleLog with is_flagged := true, create_time := 20 }] 1 (by decide)⟩

/-- The totals population as the spec words it: the tenant-filtered set,
further restricted by `user_id` when a user filter is given (no sort,
no flag/search/date filters). -/
def specTotalsSet (u : Option String) (t : String) (db : List ChatLog) :
    List ChatLog :=
  match userActive u with
  | some uu =>
    (db.filter (fun l => l.tenant_id == t)).filter (fun l => l.user_id == uu)
  | none => db.filter (fun l => l.tenant_id == t)

theorem totalsBase_length (u : Option String) (t : String)
    (db : List ChatLog) :
    (totalsBase u t db).length = (specTotalsSet u t db).length := by
  unfold totalsBase specTotalsSet tenantLogs
  cases userActive u with
  | none => exact length_sortDesc _
  | some uu =>
    exact ((List.perm_insertionSort byCreateDesc _).filter _).length_eq

theorem totalsBase_count (u : Option String) (t : String)
    (db : List ChatLog) (q : ChatLog → Bool) :
    ((totalsBase u t db).filter q).length =
      ((specTotalsSet u t db).filter q).length := by
  unfold totalsBase specTotalsSet tenantLogs
  cases userActive u with
  | none => exact length_filter_sortDesc _ _
  | some uu =>
    exact (((List.perm_insertionSort byCreateDesc _).filter _).filter _).length_eq

/-- Inversion of a successful `/list` request: the output is the
assembly of the clamped parameters, the totals base and some filtered
sequence. -/
theorem list_logs_ok_elim {parse : String → Option Nat} {dateOf : Nat → Nat}
    {p : ListParams} {t : String} {db : List ChatLog} {out : ListOutput}
    (h : list_logs parse dateOf p t db = .ok out) :
    ∃ logs, filteredSeq parse dateOf p t db = .ok logs ∧
      out = assembleOutput (clampPage p.page) (clampLimit p.limit)
        (totalsBase p.user_id t db) logs := by
  unfold list_logs at h
  cases hf : filteredSeq parse dateOf p t db with
  | error e => rw [hf] at h; simp [Except.map] at h
  | ok logs =>
    rw [hf] at h
    simp only [Except.map, Except.ok.injEq] at h
    exact ⟨logs, rfl, h.symm⟩

/-- Claim C5: the totals returned by `/list` are computed over the
tenant-filtered set, restricted by `user_id` when a user filter is
given, independently of the `flag`, `search`, `start_date` and
`end_date` parameters; in particular two successful requests differing
only in `flag` return identical totals. -/
theorem list_logs_totals_prefilter :
    (∀ parse dateOf p t db out,
      list_logs parse dateOf p t db = .ok out →
      out.total_chats = (specTotalsSet p.user_id t db).length ∧
      out.total_flagged =
        ((specTotalsSet p.user_id t db).filter (fun l => l.is_flagged)).length ∧
      out.total_out_scope =
        ((specTotalsSet p.user_id t db).filter
          (fun l => l.flag_reason == some "out of scope")).length) ∧
    (∀ parse dateOf p t db f out out',
      list_logs parse dateOf p t db = .ok out →
      list_logs parse dateOf { p with flag := f } t db = .ok out' →
      out.total_chats = out'.total_chats ∧
      out.total_flagged = out'.total_flagged ∧
      out.total_out_scope = out'.total_out_scope) := by
  have main : ∀ parse dateOf p t db out,
      list_logs parse dateOf p t db = .ok out →
      out.total_chats = (specTotalsSet p.user_id t db).length ∧
      out.total_flagged =
        ((specTotalsSet p.user_id t db).filter (fun l => l.is_flagged)).length ∧
      out.total_out_scope =
        ((specTotalsSet p.user_id t db).filter
          (fun l => l.flag_reason == some "out of scope")).length := by
    intro parse dateOf p t db out h
    obtain ⟨logs, _, hout⟩ := list_logs_ok_elim h
    subst hout
    exact ⟨totalsBase_length _ _ _, totalsBase_count _ _ _ _,
      totalsBase_count _ _ _ _⟩
  refine ⟨main, ?_⟩
  intro parse dateOf p t db f out out' h h'
  obtain ⟨h1, h2, h3⟩ := main parse dateOf p t db out h
  obtain ⟨h1', h2', h3'⟩ := main parse dateOf { p with flag := f } t db out' h'
  exact ⟨h1.trans h1'.symm, h2.trans h2'.symm, h3.trans h3'.symm⟩

/-- Default parameters of a plain `/list` request (`page=1`, `limit=50`,
no filters). -/
def p0 : ListParams :=
  { page := 1, limit := 50, user_id := none, flag := "all",
    search := none, start_date := none, end_date := none }

/-- The response of that request over a one-record store. -/
def outP0 : ListOutput :=
  { logs := [sampleLog], page := 1, limit := 50, total := 1, pages := 1,
    total_chats := 1, total_flagged := 0, total_out_scope := 0 }

/-- Witness for C5: the totals of a concrete successful request. -/
theorem list_logs_totals_prefilter_witness :
    list_logs (fun _ => none) (fun n => n) p0 "tenant0" [sampleLog] =
      .ok outP0 ∧
    (outP0.total_chats = (specTotalsSet p0.user_id "tenant0" [sampleLog]).length ∧
      outP0.total_flagged =
        ((specTotalsSet p0.user_id "tenant0" [sampleLog]).filter
          (fun l => l.is_flagged)).length ∧
      outP0.total_out_scope =
        ((specTotalsSet p0.user_id "tenant0" [sampleLog]).filter
          (fun l => l.flag_reason == some "out of scope")).length) :=
  ⟨rfl, list_logs_totals_prefilter.1 (fun _ => none) (fun n => n) p0
    "tenant0" [sampleLog] outP0 rfl⟩

theorem clampPage_spec (page : Int) :
    (page < 1 → clampPage page = 1) ∧ (1 ≤ page → clampPage page = page) := by
  unfold clampPage
  constructor
  · intro h; rw [if_pos h]
  · intro h; rw [if_neg (by omega)]

theorem clampLimit_spec (limit : Int) :
    (limit < 1 → clampLimit limit = 1) ∧
    (1 ≤ limit → limit ≤ 200 → clampLimit limit = limit) ∧
    (200 < limit → clampLimit limit = 200) := by
  refine ⟨fun h => ?_, fun h1 h2 => ?_, fun h => ?_⟩ <;>
    (simp only [clampLimit, min_def]; split_ifs <;> omega)

/-- A synthetic store of 120 records of one tenant, already in
descending `create_time` order. -/
def mkLog120 (i : Nat) : ChatLog :=
  { id := "id", tenant_id := "t", user_id := "u", question := "q",
    response := none, dialog_id := none, conversation_id := none,
    is_flagged := false, log_type := "normal", flag_reason := none,
    kb_ids := [], tokens_used := 0, response_time := 0,
    source := "completion", metadata := [], create_time := 200 - i,
    update_time := 0 }

def db120 : List ChatLog := (List.range 120).map mkLog120

/-- `/list` with `limit=50`, `page=2` and no filters. -/
def p120 : ListParams :=
  { page := 2, limit := 50, user_id := none, flag := "all",
    search := none, start_date := none, end_date := none }

/-- Projection of a `/list` result onto its page slice and page count. -/
def okPagesAndLogs (r : Except ApiError ListOutput) :
    Option (List ChatLog × Int) :=
  match r with
  | .ok o => some (o.logs, o.pages)
  | .error _ => none

set_option maxRecDepth 4000

/-- Claim C6: `/list` clamps `page<1→1`, `limit<1→1`, `limit>200→200`,
uses `offset=(page-1)*limit`, returns the slice
`[offset, offset+limit)` of the filtered sequence, and `pages` is the
ceiling of `total/limit` (pinned by
`total ≤ pages*limit < total + limit`); in particular `limit=50`,
`page=2` over 120 filtered entries yields `entries[50:100]` and
`pages = 3`. -/
theorem list_logs_pagination :
    (∀ parse dateOf p t db logs out,
      filteredSeq parse dateOf p t db = .ok logs →
      list_logs parse dateOf p t db = .ok out →
      ((p.page < 1 → out.page = 1) ∧ (1 ≤ p.page → out.page = p.page)) ∧
      ((p.limit < 1 → out.limit = 1) ∧
        (1 ≤ p.limit → p.limit ≤ 200 → out.limit = p.limit) ∧
        (200 < p.limit → out.limit = 200)) ∧
      1 ≤ out.limit ∧
      out.logs =
        (logs.drop ((out.page - 1) * out.limit).toNat).take out.limit.toNat ∧
      out.total = logs.length ∧
      (out.total : Int) ≤ out.pages * out.limit ∧
      out.pages * out.limit < (out.total : Int) + out.limit) ∧
    (okPagesAndLogs (list_logs (fun _ => none) (fun n => n) p120 "t" db120) =
      some ((db120.drop 50).take 50, 3)) := by
  constructor
  · intro parse dateOf p t db logs out hf h
    obtain ⟨logs', hf', hout⟩ := list_logs_ok_elim h
    rw [hf] at hf'
    injection hf' with hl
    subst hl
    subst hout
    simp only [assembleOutput]
    refine ⟨⟨(clampPage_spec p.page).1, (clampPage_spec p.page).2⟩,
      ⟨(clampLimit_spec p.limit).1, (clampLimit_spec p.limit).2.1,
        (clampLimit_spec p.limit).2.2⟩,
      clampLimit_pos p.limit, trivial, trivial,
      (ceil_fdiv_bounds logs.length (clampLimit p.limit)
        (clampLimit_pos p.limit)).1,
      (ceil_fdiv_bounds logs.length (clampLimit p.limit)
        (clampLimit_pos p.limit)).2⟩
  · decide

/-- Witness for C6: the general pagination clause on a concrete
one-record request. -/
theorem list_logs_pagination_witness :
    (filteredSeq (fun _ => none) (fun n => n) p0 "tenant0" [sampleLog] =
      .ok [sampleLog]) ∧
    (list_logs (fun _ => none) (fun n => n) p0 "tenant0" [sampleLog] =
      .ok outP0) ∧
    (((p0.page < 1 → outP0.page = 1) ∧ (1 ≤ p0.page → outP0.page = p0.page)) ∧
      ((p0.limit < 1 → outP0.limit = 1) ∧
        (1 ≤ p0.limit → p0.limit ≤ 200 → outP0.limit = p0.limit) ∧
        (200 < p0.limit → outP0.limit = 200)) ∧
      1 ≤ outP0.limit ∧
      outP0.logs = (([sampleLog].drop
        ((outP0.page - 1) * outP0.limit).toNat).take outP0.limit.toNat) ∧
      outP0.total = [sampleLog].length ∧
      (outP0.total : Int) ≤ outP0.pages * outP0.limit ∧
      outP0.pages * outP0.limit < (outP0.total : Int) + outP0.limit) :=
  ⟨rfl, rfl,
    list_logs_pagination.1 (fun _ => none) (fun n => n) p0 "tenant0"
      [sampleLog] [sampleLog] outP0 rfl rfl⟩

/-- Whether an entry passes the `start_date` lower-bound check of the
date loop (and hence reaches the `end_date` parse). -/
def survivesStart (parse : String → Option Nat) (dateOf : Nat → Nat)
    (sd : Option String) (log : ChatLog) : Bool :=
  match sd with
  | none => true
  | some s =>
    match parse s with
    | none => false
    | some sdt => !decide (dateOf log.create_time < sdt)

theorem dateLoop_invalid_start (parse : String → Option Nat)
    (dateOf : Nat → Nat) (s : String) (ed : Option String)
    (hs : parse s = none) :
    ∀ l : List ChatLog, l ≠ [] →
      dateFilterLoop parse dateOf (some s) ed l =
        .error (.dataError "Invalid start_date format. Use YYYY-MM-DD") := by
  intro l hl
  cases l with
  | nil => exact absurd rfl hl
  | cons log rest => simp [dateFilterLoop, hs]

theorem dateLoop_invalid_end (parse : String → Option Nat)
    (dateOf : Nat → Nat) (sd : Option String) (es : String)
    (hsd : sd = none ∨ ∃ s d, sd = some s ∧ parse s = some d)
    (he : parse es = none) :
    ∀ l : List ChatLog,
      ((∃ log ∈ l, survivesStart parse dateOf sd log = true) →
        dateFilterLoop parse dateOf sd (some es) l =
          .error (.dataError "Invalid end_date format. Use YYYY-MM-DD")) ∧
      ((∀ log ∈ l, survivesStart parse dateOf sd log = false) →
        dateFilterLoop parse dateOf sd (some es) l = .ok []) := by
  intro l
  induction l with
  | nil =>
    refine ⟨?_, fun _ => rfl⟩
    rintro ⟨log, hmem, -⟩
    exact absurd hmem (List.not_mem_nil log)
  | cons log rest ih =>
    rcases hsd with h0 | ⟨s, d, hsdv, hps⟩
    · subst h0
      constructor
      · intro _
        simp [dateFilterLoop, he]
      · intro hall
        have := hall log (List.mem_cons_self log rest)
        simp [survivesStart] at this
    · subst hsdv
      by_cases hlt : dateOf log.create_time < d
      · have hstep : dateFilterLoop parse dateOf (some s) (some es)
            (log :: rest) = dateFilterLoop parse dateOf (some s) (some es)
            rest := by
          simp [dateFilterLoop, hps, hlt]
        constructor
        · rintro ⟨log0, hmem, hsurv⟩
          rw [hstep]
          rcases List.mem_cons.mp hmem with h | h
          · subst h
            simp [survivesStart, hps, hlt] at hsurv
          · exact ih.1 ⟨log0, h, hsurv⟩
        · intro hall
          rw [hstep]
          exact ih.2 fun l0 hm => hall l0 (List.mem_cons_of_mem log hm)
      · constructor
        · intro _
          simp [dateFilterLoop, hps, hlt, he]
        · intro hall
          have := hall log (List.mem_cons_self log rest)
          simp [survivesStart, hps, hlt] at this

/-- A `/list` request fails with a given client error exactly when the
date loop does. -/
theorem list_logs_error_iff (parse : String → Option Nat)
    (dateOf : Nat → Nat) (p : ListParams) (t : String) (db : List ChatLog)
    (e : ApiError) :
    list_logs parse dateOf p t db = .error e ↔
      filteredSeq parse dateOf p t db = .error e := by
  unfold list_logs
  cases hf : filteredSeq parse dateOf p t db <;> simp [Except.map]

/-- Claim C4 as amended: with a truthy unparseable `start_date`, `/list`
returns the structured client error exactly when at least one entry
survives the preceding tenant/user/flag/search filters; with a truthy
unparseable `end_date` (and `start_date` absent or parseable), exactly
when at least one surviving entry also passes the `start_date`
lower-bound check.  Otherwise — in particular when no entry survives the
preceding filters — the request silently succeeds. -/
theorem list_logs_invalid_date_error :
    (∀ parse dateOf p t db s,
      strTruthy p.start_date = some s → parse s = none →
      (list_logs parse dateOf p t db =
          .error (.dataError "Invalid start_date format. Use YYYY-MM-DD")
        ↔ preDateLogs p t db ≠ [])) ∧
    (∀ parse dateOf p t db es,
      strTruthy p.end_date = some es → parse es = none →
      (strTruthy p.start_date = none ∨
        ∃ s d, strTruthy p.start_date = some s ∧ parse s = some d) →
      (list_logs parse dateOf p t db =
          .error (.dataError "Invalid end_date format. Use YYYY-MM-DD")
        ↔ ∃ log ∈ preDateLogs p t db,
            survivesStart parse dateOf (strTruthy p.start_date) log = true)) := by
  constructor
  · intro parse dateOf p t db s hss hps
    rw [list_logs_error_iff]
    unfold filteredSeq
    rw [hss]
    simp only [Option.isSome_some, Bool.true_or, if_true]
    constructor
    · intro herr hnil
      rw [hnil] at herr
      exact absurd herr (by simp [dateFilterLoop])
    · intro hne
      exact dateLoop_invalid_start parse dateOf s _ hps _ hne
  · intro parse dateOf p t db es hes hpe hsd
    rw [list_logs_error_iff]
    unfold filteredSeq
    rw [hes]
    simp only [Option.isSome_some, Bool.or_true, if_true]
    constructor
    · intro herr
      by_contra hnone
      push_neg at hnone
      have hall : ∀ log ∈ preDateLogs p t db,
          survivesStart parse dateOf (strTruthy p.start_date) log = false := by
        intro l0 hm
        have := hnone l0 hm
        exact Bool.eq_false_iff.mpr this
      have hok := (dateLoop_invalid_end parse dateOf _ es hsd hpe
        (preDateLogs p t db)).2 hall
      rw [hok] at herr
      exact absurd herr (by simp)
    · intro hex
      exact (dateLoop_invalid_end parse dateOf _ es hsd hpe
        (preDateLogs p t db)).1 hex

/-- The `/list` parameters of the counterexample: an unparseable
`start_date` together with a flag filter that no stored entry matches. -/
def ceParams : ListParams :=
  { page := 1, limit := 50, user_id := none, flag := "flagged",
    search := none, start_date := some "not-a-date", end_date := none }

def returnsOk (r : Except ApiError ListOutput) : Bool :=
  match r with
  | .ok _ => true
  | .error _ => false

/-- Counterexample to claim C4 as stated: the date parse (and hence its
`ValueError` handler) sits inside the loop over the already-filtered
entries, so a request whose preceding filters match nothing succeeds
silently even though `start_date` is present and unparseable.  Here the
store holds one unflagged record of the tenant, the request asks for
`flag=flagged` and `start_date="not-a-date"` (with a date parser that
rejects it), and the result is a success, not a client error. -/
theorem list_logs_invalid_date_counterexample :
    strTruthy ceParams.start_date = some "not-a-date" ∧
    (fun _ : String => (none : Option Nat)) "not-a-date" = none ∧
    returnsOk (list_logs (fun _ => none) (fun n => n) ceParams "tenant0"
      [sampleLog]) = true := by
  refine ⟨rfl, rfl, by decide⟩

/-- The same request with `flag=all`, so one entry survives the
preceding filters. -/
def ceParamsAll : ListParams :=
  { page := 1, limit := 50, user_id := none, flag := "all",
    search := none, start_date := some "not-a-date", end_date := none }

/-- Witness for C4 (amended): with one surviving entry the unparseable
`start_date` produces the structured client error. -/
theorem list_logs_invalid_date_error_witness :
    strTruthy ceParamsAll.start_date = some "not-a-date" ∧
    ((fun _ : String => (none : Option Nat)) "not-a-date" = none) ∧
    (list_logs (fun _ => none) (fun n => n) ceParamsAll "tenant0" [sampleLog] =
        .error (.dataError "Invalid start_date format. Use YYYY-MM-DD")
      ↔ preDateLogs ceParamsAll "tenant0" [sampleLog] ≠ []) :=
  ⟨rfl, rfl,
    list_logs_invalid_date_error.1 (fun _ => none) (fun n => n) ceParamsAll
      "tenant0" [sampleLog] "not-a-date" rfl rfl⟩
